import Mathlib

/-!
Verification of the concurrent-pipeline core of the Zypher EdgeAI demo
against its natural-language specification.

Each C module's mutable state is embedded as a Lean structure and each C
function as a pure state-passing Lean function, translated line by line from
the source under src/.  Machine integers are modelled as `Nat`/`Int`, with an
explicit `% 2^32` where a `uint32_t` counter can wrap; `float` arithmetic
(DC-offset filtering and quantization scaling in src/src/ml/preprocessing.c)
is modelled over the exact rationals `ℚ`.  Error returns keep the numeric
errno values of the C code (`-EINVAL = -22`, `-EAGAIN = -11`, `-ENOSPC = -28`).
Pointer-validity checks (`NULL` arguments) are not representable in the
embedding and are omitted; every other branch of the translated functions is
kept.
-/

/- ============================================================
   Result queue - src/src/output/ring_buffer.c
   ============================================================ -/

/-- CONFIG_OUTPUT_RING_BUFFER_SIZE, defaulted to 16 in src/src/output/ring_buffer.c. -/
def CONFIG_OUTPUT_RING_BUFFER_SIZE : Nat := 16

/-- The complete mutable state of src/src/output/ring_buffer.c: the entry
array `buffer` (length CONFIG_OUTPUT_RING_BUFFER_SIZE) and the indices
`head`, `tail`, `count`.  The payload type of `inference_result_t` entries is
abstracted to a type parameter. -/
structure ResultRing (α : Type) where
  buffer : List α
  head : Nat
  tail : Nat
  count : Nat
deriving DecidableEq

/-- result_buffer_init: zeroes the indices and the array (`memset`); `z` is
the all-zero entry value. -/
def result_buffer_init (z : α) : ResultRing α :=
  { buffer := List.replicate CONFIG_OUTPUT_RING_BUFFER_SIZE z
    head := 0
    tail := 0
    count := 0 }

/-- result_buffer_push: when the queue is full the oldest entry is dropped
(`tail` advances, `count` decrements) and the new entry is stored at `head`.
Returns 0 in every case reachable with a valid entry. -/
def result_buffer_push (r : α) (b : ResultRing α) : Int × ResultRing α :=
  let b1 :=
    if CONFIG_OUTPUT_RING_BUFFER_SIZE ≤ b.count then
      { b with tail := (b.tail + 1) % CONFIG_OUTPUT_RING_BUFFER_SIZE
               count := b.count - 1 }
    else b
  (0, { b1 with buffer := b1.buffer.set b1.head r
                head := (b1.head + 1) % CONFIG_OUTPUT_RING_BUFFER_SIZE
                count := b1.count + 1 })

/-- result_buffer_pop: returns -EAGAIN (-11) on an empty queue, otherwise the
entry at `tail`. -/
def result_buffer_pop [Inhabited α] (b : ResultRing α) : Int × Option α × ResultRing α :=
  if b.count = 0 then (-11, none, b)
  else (0, some (b.buffer.getD b.tail default),
        { b with tail := (b.tail + 1) % CONFIG_OUTPUT_RING_BUFFER_SIZE
                 count := b.count - 1 })

/-- result_buffer_empty. -/
def result_buffer_empty (b : ResultRing α) : Bool :=
  decide (b.count = 0)

/-- result_buffer_full. -/
def result_buffer_full (b : ResultRing α) : Bool :=
  decide (CONFIG_OUTPUT_RING_BUFFER_SIZE ≤ b.count)

/-- result_buffer_count. -/
def result_buffer_count (b : ResultRing α) : Nat := b.count

/-- Push a list of entries in order. -/
def pushAll (rs : List α) (b : ResultRing α) : ResultRing α :=
  rs.foldl (fun b r => (result_buffer_push r b).2) b

/-- Push a list of entries in order, also counting how many of the pushes hit
the full branch of result_buffer_push (each such push drops the oldest entry
and emits the "Result buffer full, dropping oldest" log line). -/
def pushAllDropped (rs : List α) (b : ResultRing α) : ResultRing α × Nat :=
  rs.foldl
    (fun p r =>
      ((result_buffer_push r p.1).2,
       p.2 + if CONFIG_OUTPUT_RING_BUFFER_SIZE ≤ p.1.count then 1 else 0))
    (b, 0)

/-- Pop up to `n` entries, collecting the successfully returned values in
order. -/
def popN [Inhabited α] (n : Nat) (b : ResultRing α) : List α × ResultRing α :=
  match n with
  | 0 => ([], b)
  | n + 1 =>
    match result_buffer_pop b with
    | (_, some r, b2) =>
      match popN n b2 with
      | (rs, b3) => (r :: rs, b3)
    | (_, none, b2) => ([], b2)

/-- The circular-buffer well-formedness invariant of the result queue:
`count` never exceeds the capacity and `head` is `tail` advanced by `count`
modulo the capacity. -/
def RingInv (b : ResultRing α) : Prop :=
  b.count ≤ CONFIG_OUTPUT_RING_BUFFER_SIZE ∧
  b.head = (b.tail + b.count) % CONFIG_OUTPUT_RING_BUFFER_SIZE

instance (b : ResultRing α) : Decidable (RingInv b) := by
  unfold RingInv
  infer_instance

/-- C10: result_buffer_init establishes and result_buffer_push /
result_buffer_pop preserve the circular-buffer invariant
`count ≤ CONFIG_OUTPUT_RING_BUFFER_SIZE ∧ head = (tail + count) % SIZE`;
result_buffer_empty holds exactly when `count = 0`, result_buffer_full holds
exactly when `count` equals the capacity, and popping an empty queue returns
-EAGAIN leaving head, tail and count unchanged. -/
theorem c10_ring_invariants (α : Type) [Inhabited α] (z r : α) (b : ResultRing α)
    (hb : RingInv b) :
    RingInv (result_buffer_init z) ∧
    RingInv (result_buffer_push r b).2 ∧
    RingInv (result_buffer_pop b).2.2 ∧
    (result_buffer_empty b = true ↔ b.count = 0) ∧
    (result_buffer_full b = true ↔ b.count = CONFIG_OUTPUT_RING_BUFFER_SIZE) ∧
    (b.count = 0 → result_buffer_pop b = (-11, none, b)) := by
  obtain ⟨h1, h2⟩ := hb
  refine ⟨⟨by simp [result_buffer_init, CONFIG_OUTPUT_RING_BUFFER_SIZE], by
    simp [result_buffer_init]⟩, ?_, ?_, ?_, ?_, ?_⟩
  · unfold result_buffer_push RingInv CONFIG_OUTPUT_RING_BUFFER_SIZE at *
    split <;> simp_all <;> omega
  · unfold result_buffer_pop RingInv CONFIG_OUTPUT_RING_BUFFER_SIZE at *
    split <;> simp_all <;> omega
  · simp [result_buffer_empty]
  · unfold result_buffer_full CONFIG_OUTPUT_RING_BUFFER_SIZE at *
    simp
    omega
  · intro h
    simp [result_buffer_pop, h]

/-- Witness for c10_ring_invariants: the invariant is preserved by a push on
the freshly initialized queue. -/
theorem c10_ring_invariants_witness :
    RingInv (result_buffer_push 5 (result_buffer_init (0 : Nat))).2 :=
  (c10_ring_invariants Nat 0 5 (result_buffer_init 0) (by decide)).2.1

/-- Run A for C2: seventeen pushes (capacity + 1) into the freshly
initialized queue; the final push hits the full branch and drops the oldest
entry. -/
def c2RunA : ResultRing Nat × Nat :=
  pushAllDropped ((List.range 17).map (· + 1)) (result_buffer_init 0)

/-- Run B for C2: sixteen pushes, one pop, then one more push; no push ever
hits the full branch, so nothing is dropped. -/
def c2RunB : ResultRing Nat × Nat :=
  let p := pushAllDropped ((List.range 16).map (· + 1)) (result_buffer_init 0)
  let q := result_buffer_pop p.1
  let p2 := pushAllDropped [17] q.2.2
  (p2.1, p.2 + p2.2)

/-- C2 counterexample: ring_buffer.c maintains no dropped-count counter.  The
structure `ResultRing` is the complete mutable state of the file (`buffer`,
`head`, `tail`, `count`); run A drops one entry (the oldest, on the
seventeenth push) while run B drops none, yet the two runs end in exactly the
same state.  Hence no component of the queue's state is incremented when an
entry is evicted, contradicting the claimed dropped-count counter: the
eviction is only logged. -/
theorem c2_no_dropped_counter :
    c2RunA.1 = c2RunB.1 ∧ c2RunA.2 = 1 ∧ c2RunB.2 = 0 := by
  decide

set_option maxHeartbeats 2000000 in
/-- C2 as amended: pushing capacity + 1 entries into the freshly initialized
queue leaves exactly capacity entries, the oldest entry `a0` is evicted
(push always returns 0, never rejecting the new entry), and popping returns
the retained entries `a1 .. a16` in FIFO order.  No dropped-count counter
exists; eviction is only logged. -/
theorem c2_bounded_eviction_fifo (α : Type) [Inhabited α]
    (z a0 a1 a2 a3 a4 a5 a6 a7 a8 a9 a10 a11 a12 a13 a14 a15 a16 : α) :
    result_buffer_count
      (pushAll [a0, a1, a2, a3, a4, a5, a6, a7, a8, a9, a10, a11, a12, a13, a14, a15, a16]
        (result_buffer_init z)) = CONFIG_OUTPUT_RING_BUFFER_SIZE ∧
    (popN 16
      (pushAll [a0, a1, a2, a3, a4, a5, a6, a7, a8, a9, a10, a11, a12, a13, a14, a15, a16]
        (result_buffer_init z))).1 =
      [a1, a2, a3, a4, a5, a6, a7, a8, a9, a10, a11, a12, a13, a14, a15, a16] ∧
    (∀ (c : ResultRing α) (r : α), (result_buffer_push r c).1 = 0) := by
  refine ⟨rfl, ?_, fun _ _ => rfl⟩
  simp [pushAll, popN, result_buffer_push, result_buffer_pop, result_buffer_init,
    CONFIG_OUTPUT_RING_BUFFER_SIZE, List.replicate, List.foldl]

/- ============================================================
   Windowed preprocessor - src/src/ml/preprocessing.c
   ============================================================ -/

/-- CONFIG_ML_INFERENCE_WINDOW_SIZE, defaulted to 50 in src/src/ml/inference.h. -/
def CONFIG_ML_INFERENCE_WINDOW_SIZE : Nat := 50

/-- ML_INPUT_AXES from src/src/ml/inference.h. -/
def ML_INPUT_AXES : Nat := 3

/-- ML_INPUT_SIZE = ML_INPUT_AXES * CONFIG_ML_INFERENCE_WINDOW_SIZE. -/
def ML_INPUT_SIZE : Nat := ML_INPUT_AXES * CONFIG_ML_INFERENCE_WINDOW_SIZE

/-- QUANT_SCALE = 127.0f / 16384.0f, modelled exactly over ℚ. -/
def QUANT_SCALE : ℚ := 127 / 16384

/-- DC_FILTER_ALPHA = 0.95f, modelled exactly over ℚ. -/
def DC_FILTER_ALPHA : ℚ := 95 / 100

/-- struct accel_sample from src/unnamed/part_002 (sensor_hal.h): three
signed 16-bit channel readings plus a timestamp. -/
structure accel_sample where
  x : Int
  y : Int
  z : Int
  timestamp_us : Nat
deriving DecidableEq

/-- The all-zero sample (`memset` value of the window array). -/
def zeroSample : accel_sample := ⟨0, 0, 0, 0⟩

/-- The complete mutable state of src/src/ml/preprocessing.c: the window
array, the write position, the ready flag, the three per-channel DC-offset
estimates, and the initialization flag. -/
structure PreprocState where
  sample_window : List accel_sample
  window_pos : Nat
  window_ready : Bool
  dc_offset_x : ℚ
  dc_offset_y : ℚ
  dc_offset_z : ℚ
  init_done : Bool
deriving DecidableEq

/-- preprocessing_init: zero window, position 0, not ready, DC estimates
(0, 0, 8192). -/
def preprocessing_init : PreprocState :=
  { sample_window := List.replicate CONFIG_ML_INFERENCE_WINDOW_SIZE zeroSample
    window_pos := 0
    window_ready := false
    dc_offset_x := 0
    dc_offset_y := 0
    dc_offset_z := 8192
    init_done := true }

/-- preprocessing_add_sample: updates each DC-offset estimate by the
exponential moving average, stores the sample at the current write position
unconditionally, and when the position reaches the window size sets the ready
flag and resets the position to zero. -/
def preprocessing_add_sample (s : accel_sample) (st : PreprocState) : Int × PreprocState :=
  if st.init_done = false then (-22, st)
  else
    let dx := DC_FILTER_ALPHA * st.dc_offset_x + (1 - DC_FILTER_ALPHA) * (s.x : ℚ)
    let dy := DC_FILTER_ALPHA * st.dc_offset_y + (1 - DC_FILTER_ALPHA) * (s.y : ℚ)
    let dz := DC_FILTER_ALPHA * st.dc_offset_z + (1 - DC_FILTER_ALPHA) * (s.z : ℚ)
    let w := st.sample_window.set st.window_pos s
    let pos := st.window_pos + 1
    if CONFIG_ML_INFERENCE_WINDOW_SIZE ≤ pos then
      (0, { sample_window := w, window_pos := 0, window_ready := true
            dc_offset_x := dx, dc_offset_y := dy, dc_offset_z := dz
            init_done := st.init_done })
    else
      (0, { sample_window := w, window_pos := pos, window_ready := st.window_ready
            dc_offset_x := dx, dc_offset_y := dy, dc_offset_z := dz
            init_done := st.init_done })

/-- preprocessing_window_ready. -/
def preprocessing_window_ready (st : PreprocState) : Bool := st.window_ready

/-- Truncation of a rational toward zero, the behavior of the C cast
`(int32_t)` applied to a float value (all values reached here are far inside
the int32 range). -/
def ratTrunc (q : ℚ) : Int :=
  if 0 ≤ q then Int.floor q else Int.ceil q

/-- The clamp of lines 163-165 of preprocessing.c:
`(q < -128) ? -128 : (q > 127) ? 127 : q`. -/
def clampInt8 (v : Int) : Int :=
  if v < -128 then -128 else if 127 < v then 127 else v

/-- One quantized channel value: subtract the DC-offset estimate, scale by
QUANT_SCALE, truncate to an integer, clamp into the int8 range. -/
def quantizeCoord (v : Int) (dc : ℚ) : Int :=
  clampInt8 (ratTrunc (((v : ℚ) - dc) * QUANT_SCALE))

/-- The channel-interleaved quantized output of the conversion loop of
preprocessing_get_input. -/
def quantizeList (dcx dcy dcz : ℚ) : List accel_sample → List Int
  | [] => []
  | s :: ss =>
    quantizeCoord s.x dcx :: quantizeCoord s.y dcy :: quantizeCoord s.z dcz ::
      quantizeList dcx dcy dcz ss

/-- The quantized feature buffer computed from the current window and
DC-offset estimates. -/
def quantizeWindow (st : PreprocState) : List Int :=
  quantizeList st.dc_offset_x st.dc_offset_y st.dc_offset_z st.sample_window

/-- preprocessing_get_input: -ENOSPC if the destination is smaller than
ML_INPUT_SIZE, then -EAGAIN if no window is ready, otherwise the quantized
buffer with the ready flag cleared.  The destination buffer is embedded as
its size plus the returned contents. -/
def preprocessing_get_input (output_size : Nat) (st : PreprocState) :
    Int × Option (List Int) × PreprocState :=
  if output_size < ML_INPUT_SIZE then (-28, none, st)
  else if st.window_ready = false then (-11, none, st)
  else (0, some (quantizeWindow st), { st with window_ready := false })

/-- Feed a list of samples in order through preprocessing_add_sample. -/
def addAll (ss : List accel_sample) (st : PreprocState) : PreprocState :=
  ss.foldl (fun st s => (preprocessing_add_sample s st).2) st

/-- Sample number `i` of the C1 failing input: x = i + 1, so every sample is
identifiable from its x channel. -/
def c1Sample (i : Nat) : accel_sample := ⟨(i : Int) + 1, 0, 0, i⟩

/-- The preprocessor state after the 50 samples that complete the first
window, none of them consumed yet. -/
def c1After50 : PreprocState := addAll ((List.range 50).map c1Sample) preprocessing_init

/-- The preprocessor state after one further sample arrives while the first
window is still pending. -/
def c1After51 : PreprocState := addAll ((List.range 51).map c1Sample) preprocessing_init

set_option maxRecDepth 40000 in
set_option maxHeartbeats 2000000 in
/-- C1: failing-input evaluation.  After the 50 samples (x = 1..50) that
complete a window, the window is ready and slot 0 holds the sample with
x = 1.  One more append (x = 51), made before the consumer has called
preprocessing_get_input, is neither rejected nor absorbed by a second
buffer: it is accepted (returns 0) and overwrites slot 0 of the still-pending
window while the ready flag stays set, so the stored window no longer equals
the window the 50 completing samples produced, and the quantized buffer later
returned for that window is computed from the corrupted window. -/
theorem c1_overwrite_bug :
    c1After50.window_ready = true ∧
    c1After50.sample_window.head?.map accel_sample.x = some 1 ∧
    (preprocessing_add_sample (c1Sample 50) c1After50).1 = 0 ∧
    c1After51.window_ready = true ∧
    c1After51.sample_window.head?.map accel_sample.x = some 51 ∧
    c1After51.sample_window ≠ c1After50.sample_window ∧
    (preprocessing_get_input ML_INPUT_SIZE c1After51).2.1 =
      some (quantizeWindow c1After51) := by
  refine ⟨by decide, by decide, by decide, by decide, by decide, by decide, rfl⟩

/-- C6: preprocessing_get_input fails with -ENOSPC when the destination is
smaller than ML_INPUT_SIZE, fails with -EAGAIN when (given a large enough
destination) no window is ready, leaves the entire preprocessor state
unchanged in every failure case, succeeds exactly when a window is ready and
the destination is large enough, and on success only clears the ready flag
(window contents, write position and DC estimates unchanged). -/
theorem c6_get_input_errors (st : PreprocState) (sz : Nat) :
    (sz < ML_INPUT_SIZE → preprocessing_get_input sz st = (-28, none, st)) ∧
    (ML_INPUT_SIZE ≤ sz → st.window_ready = false →
      preprocessing_get_input sz st = (-11, none, st)) ∧
    ((preprocessing_get_input sz st).1 ≠ 0 → (preprocessing_get_input sz st).2.2 = st) ∧
    ((preprocessing_get_input sz st).1 = 0 ↔ st.window_ready = true ∧ ML_INPUT_SIZE ≤ sz) ∧
    ((preprocessing_get_input sz st).1 = 0 →
      (preprocessing_get_input sz st).2.2 = { st with window_ready := false }) := by
  by_cases h1 : sz < ML_INPUT_SIZE
  · have e : preprocessing_get_input sz st = (-28, none, st) := by
      unfold preprocessing_get_input
      rw [if_pos h1]
    refine ⟨fun _ => e, fun hc _ => absurd h1 (by omega), fun _ => by rw [e], ?_, fun hc => ?_⟩
    · rw [e]
      exact ⟨fun hc => absurd hc (by simp), fun hc => absurd h1 (by omega)⟩
    · rw [e] at hc
      exact absurd hc (by simp)
  · by_cases h2 : st.window_ready = false
    · have e : preprocessing_get_input sz st = (-11, none, st) := by
        unfold preprocessing_get_input
        rw [if_neg h1, if_pos h2]
      refine ⟨fun hc => absurd hc h1, fun _ _ => e, fun _ => by rw [e], ?_, fun hc => ?_⟩
      · rw [e]
        refine ⟨fun hc => absurd hc (by simp), ?_⟩
        rintro ⟨hr, -⟩
        rw [hr] at h2
        simp at h2
      · rw [e] at hc
        exact absurd hc (by simp)
    · have hr : st.window_ready = true := by
        simpa using h2
      have e : preprocessing_get_input sz st =
          (0, some (quantizeWindow st), { st with window_ready := false }) := by
        unfold preprocessing_get_input
        rw [if_neg h1, if_neg h2]
      refine ⟨fun hc => absurd hc h1, fun _ hc => absurd hc h2, fun hc => absurd (by rw [e]) hc,
        ?_, fun _ => by rw [e]⟩
      rw [e]
      exact ⟨fun _ => ⟨hr, by omega⟩, fun _ => rfl⟩

/-- A reachable-shape preprocessor state with a complete, still-unconsumed
window (the all-zero window of the freshly initialized state, marked
ready). -/
def readyState50 : PreprocState := { preprocessing_init with window_ready := true }

/-- Witness for c6_get_input_errors: the three outcomes at concrete inputs -
undersized destination, no ready window, and success. -/
theorem c6_get_input_errors_witness :
    preprocessing_get_input 10 preprocessing_init = (-28, none, preprocessing_init) ∧
    preprocessing_get_input 150 preprocessing_init = (-11, none, preprocessing_init) ∧
    (preprocessing_get_input 150 readyState50).1 = 0 :=
  ⟨(c6_get_input_errors preprocessing_init 10).1 (by decide),
   (c6_get_input_errors preprocessing_init 150).2.1 (by decide) rfl,
   (c6_get_input_errors readyState50 150).2.2.2.1.mpr ⟨rfl, by decide⟩⟩

/-- The clamp of preprocessing_get_input keeps every value inside the int8
range. -/
theorem clampInt8_bounds (v : Int) : -128 ≤ clampInt8 v ∧ clampInt8 v ≤ 127 := by
  unfold clampInt8
  split_ifs <;> omega

/-- Every element of a quantized window list lies inside the int8 range. -/
theorem mem_quantizeList_bounds (dcx dcy dcz : ℚ) (ss : List accel_sample) :
    ∀ q ∈ quantizeList dcx dcy dcz ss, -128 ≤ q ∧ q ≤ 127 := by
  induction ss with
  | nil => simp [quantizeList]
  | cons s ss ih =>
    intro q hq
    rcases by simpa [quantizeList] using hq with h | h | h | h
    · exact h ▸ clampInt8_bounds _
    · exact h ▸ clampInt8_bounds _
    · exact h ▸ clampInt8_bounds _
    · exact ih q h

/-- C7: every value emitted by preprocessing_get_input is obtained by
subtracting the per-channel DC-offset estimate, scaling by QUANT_SCALE,
truncating, and clamping into the int8 range; the emitted values always lie
in [-128, 127], an over-range scaled value maps to 127, an under-range one
to -128 (saturation, never wrapping), and an in-range one is passed
through. -/
theorem c7_quantization_saturates (st : PreprocState) (sz : Nat) (l : List Int)
    (h : (preprocessing_get_input sz st).2.1 = some l) :
    (∀ q ∈ l, -128 ≤ q ∧ q ≤ 127) ∧
    (∀ (v : Int) (dc : ℚ),
      quantizeCoord v dc = clampInt8 (ratTrunc (((v : ℚ) - dc) * QUANT_SCALE)) ∧
      (127 < ratTrunc (((v : ℚ) - dc) * QUANT_SCALE) → quantizeCoord v dc = 127) ∧
      (ratTrunc (((v : ℚ) - dc) * QUANT_SCALE) < -128 → quantizeCoord v dc = -128) ∧
      (-128 ≤ ratTrunc (((v : ℚ) - dc) * QUANT_SCALE) →
        ratTrunc (((v : ℚ) - dc) * QUANT_SCALE) ≤ 127 →
        quantizeCoord v dc = ratTrunc (((v : ℚ) - dc) * QUANT_SCALE))) := by
  have hl : l = quantizeWindow st := by
    unfold preprocessing_get_input at h
    by_cases h1 : sz < ML_INPUT_SIZE
    · rw [if_pos h1] at h
      simp at h
    · rw [if_neg h1] at h
      by_cases h2 : st.window_ready = false
      · rw [if_pos h2] at h
        simp at h
      · rw [if_neg h2] at h
        have h3 : some (quantizeWindow st) = some l := h
        exact (Option.some.inj h3).symm
  constructor
  · rw [hl]
    exact mem_quantizeList_bounds _ _ _ _
  · intro v dc
    refine ⟨rfl, fun hgt => ?_, fun hlt => ?_, fun hge hle => ?_⟩
    · unfold quantizeCoord clampInt8
      split_ifs <;> omega
    · unfold quantizeCoord clampInt8
      split_ifs <;> omega
    · unfold quantizeCoord clampInt8
      split_ifs <;> omega

/-- Witness for c7_quantization_saturates: on the ready all-zero window the
first emitted value is in range; a scaled value of exactly 254 saturates to
127 and one of -254 saturates to -128. -/
theorem c7_quantization_saturates_witness :
    (-128 ≤ quantizeCoord 0 (0 : ℚ) ∧ quantizeCoord 0 (0 : ℚ) ≤ 127) ∧
    quantizeCoord 16383 (-16385 : ℚ) = 127 ∧
    quantizeCoord (-16383) (16385 : ℚ) = -128 := by
  have base := c7_quantization_saturates readyState50 150 (quantizeWindow readyState50) rfl
  refine ⟨base.1 (quantizeCoord 0 (0 : ℚ)) (List.mem_of_mem_head? (by rfl)), ?_, ?_⟩
  · refine (base.2 16383 (-16385)).2.1 ?_
    rw [show (((16383 : Int) : ℚ) - (-16385)) * QUANT_SCALE = 254 by norm_num [QUANT_SCALE]]
    unfold ratTrunc
    rw [if_pos (by norm_num : (0 : ℚ) ≤ 254)]
    norm_num
  · refine (base.2 (-16383) 16385).2.2.1 ?_
    rw [show (((-16383 : Int) : ℚ) - 16385) * QUANT_SCALE = -254 by norm_num [QUANT_SCALE]]
    unfold ratTrunc
    rw [if_neg (by norm_num : ¬ (0 : ℚ) ≤ -254)]
    norm_num [Int.ceil_neg]

/- ============================================================
   Resource monitor - src/src/debug/debug_monitor.c
   ============================================================ -/

/-- STACK_WARNING_THRESHOLD (percent) from debug_monitor.c. -/
def STACK_WARNING_THRESHOLD : Nat := 80

/-- MAX_MONITORED_THREADS from debug_monitor.c. -/
def MAX_MONITORED_THREADS : Nat := 4

/-- struct monitored_thread: the registry record for one monitored execution
context (the `thread` pointer itself is represented by the record's position
in the registry; registered threads are non-NULL). -/
structure monitored_thread where
  name : String
  stack_size : Nat
  peak_usage : Nat
deriving DecidableEq

instance : Inhabited monitored_thread := ⟨⟨"", 0, 0⟩⟩

/-- What the kernel reports for one thread when the monitor inspects it:
`stack_info.size` and the used bytes `size - unused` derived from
k_thread_stack_space_get (the introspection-failure path, which reports
zero, is not exercised by the claims). -/
structure StackObs where
  size : Nat
  used : Nat
deriving DecidableEq

/-- The complete mutable state of debug_monitor.c: the registry, the
cumulative warning counter, the initialization flag, and the CPU-usage
accounting fields. -/
structure MonitorState where
  monitored : List monitored_thread
  total_stack_warnings : Nat
  monitor_init_done : Bool
  last_check_time : Nat
  last_cpu_cycles : Nat
deriving DecidableEq

/-- debug_monitor_init (first call). -/
def debug_monitor_init_state : MonitorState :=
  { monitored := [], total_stack_warnings := 0, monitor_init_done := true
    last_check_time := 0, last_cpu_cycles := 0 }

/-- debug_monitor_register_thread: appends a record with stack_size 0 and
peak_usage 0, or fails with -ENOSPC when the table is full. -/
def debug_monitor_register_thread (name : String) (st : MonitorState) :
    Int × MonitorState :=
  if MAX_MONITORED_THREADS ≤ st.monitored.length then (-28, st)
  else (0, { st with monitored := st.monitored ++ [⟨name, 0, 0⟩] })

/-- debug_get_stack_percent: used * 100 / size, with 0 for a zero-size
stack. -/
def debug_get_stack_percent (o : StackObs) : Nat :=
  if o.size = 0 then 0 else o.used * 100 / o.size

/-- debug_monitor_check: one pass over the registry; every thread whose
current stack percentage exceeds the threshold increments the cumulative
warning counter and counts as an issue; returns -ENOSPC when any issue was
found.  `obs` gives the kernel's stack observation for the thread at each
registry index at the moment of this check.  The registry records themselves
are not touched. -/
def debug_monitor_check (obs : Nat → StackObs) (st : MonitorState) :
    Int × MonitorState :=
  if st.monitor_init_done = false then (-22, st)
  else
    let issues := (List.range st.monitored.length).countP
      (fun i => decide (STACK_WARNING_THRESHOLD < debug_get_stack_percent (obs i)))
    ((if 0 < issues then -28 else 0),
     { st with total_stack_warnings := st.total_stack_warnings + issues })

/-- The registry after the peak-tracking loop of debug_monitor_get_stats:
each record's peak_usage is raised to the currently observed used bytes when
that is larger. -/
def updatePeaks (obs : Nat → StackObs) : Nat → List monitored_thread → List monitored_thread
  | _, [] => []
  | i, t :: ts =>
    { t with peak_usage := if t.peak_usage < (obs i).used then (obs i).used else t.peak_usage } ::
      updatePeaks obs (i + 1) ts

/-- debug_stats_t: the snapshot record composed by debug_monitor_get_stats
(heap tracking is disabled in the source and reports zero; the float CPU
estimate is omitted). -/
structure debug_stats where
  uptime_ms : Nat
  heap_used : Nat
  heap_free : Nat
  stack_used : Nat
  stack_size : Nat
  ml_stack_used : Nat
  ml_stack_size : Nat
  stack_warnings : Nat
deriving DecidableEq

/-- debug_monitor_get_stats: composes the snapshot and, as side effects on
the monitor state, raises each registry record's peak_usage to the currently
observed usage and updates the CPU-accounting fields.  `now` is
k_uptime_get_32, `exec_cycles` the current thread's execution-cycle count,
`cur` the current thread's stack observation, and `obs` the per-index
observations of the registered threads. -/
def debug_monitor_get_stats (now exec_cycles : Nat) (cur : StackObs)
    (obs : Nat → StackObs) (st : MonitorState) : debug_stats × MonitorState :=
  let mlPair := (List.range st.monitored.length).foldl
    (fun acc i =>
      if (st.monitored.getD i default).name = "ml_thread" then ((obs i).size, (obs i).used)
      else acc)
    ((0 : Nat), (0 : Nat))
  ({ uptime_ms := now
     heap_used := 0
     heap_free := 0
     stack_used := cur.used
     stack_size := cur.size
     ml_stack_used := mlPair.2
     ml_stack_size := mlPair.1
     stack_warnings := st.total_stack_warnings },
   { st with monitored := updatePeaks obs 0 st.monitored
             last_check_time := now
             last_cpu_cycles := exec_cycles })

/-- updatePeaks preserves the registry length. -/
theorem updatePeaks_length (obs : Nat → StackObs) (j : Nat) (ts : List monitored_thread) :
    (updatePeaks obs j ts).length = ts.length := by
  induction ts generalizing j with
  | nil => rfl
  | cons t ts ih => simp [updatePeaks, ih]

/-- Pointwise description of updatePeaks: record `i` keeps its name and size
and raises its peak to the observed usage when larger. -/
theorem updatePeaks_getD (obs : Nat → StackObs) (j : Nat) (ts : List monitored_thread)
    (i : Nat) (h : i < ts.length) :
    (updatePeaks obs j ts).getD i default =
      { ts.getD i default with
        peak_usage :=
          if (ts.getD i default).peak_usage < (obs (j + i)).used then (obs (j + i)).used
          else (ts.getD i default).peak_usage } := by
  induction ts generalizing j i with
  | nil => simp at h
  | cons t ts ih =>
    cases i with
    | zero => simp [updatePeaks]
    | succ i =>
      have hj : j + 1 + i = j + (i + 1) := by omega
      simp only [updatePeaks, List.getD_cons_succ]
      rw [ih (j + 1) i (by simpa using h), hj]

/-- The registry on which the C3 counterexample runs: two registered
contexts. -/
def c3Registry : MonitorState :=
  (debug_monitor_register_thread "sensor"
    (debug_monitor_register_thread "ml_thread" debug_monitor_init_state).2).2

/-- C3 counterexample observation A: context 0 at 90 percent (above the
threshold), context 1 at 1 percent. -/
def c3ObsA : Nat → StackObs := fun i => if i = 0 then ⟨1000, 900⟩ else ⟨1000, 10⟩

/-- C3 counterexample observation B: the mirror image - context 0 at 1
percent, context 1 at 90 percent. -/
def c3ObsB : Nat → StackObs := fun i => if i = 0 then ⟨1000, 10⟩ else ⟨1000, 900⟩

/-- C3 counterexample: debug_monitor.c keeps no per-context Healthy/Warned
state and debug_monitor_check does not record peak usage.  `MonitorState` is
the complete mutable state of the file.  In run A context 0 crosses the 80
percent threshold during the check and context 1 stays far below it; in run
B the roles are swapped; yet the two checks produce exactly the same monitor
state (only the shared counter moved, and the registry records - including
peak_usage, still 0 despite the observed 900 bytes - are untouched).  No
snapshot computed from the state can therefore report context 0 as Warned
after run A but Healthy after run B, and the recorded peak does not equal
the maximum usage observed by checks: the per-context sticky Warned state
the claim describes does not exist in the code. -/
theorem c3_counterexample :
    (debug_monitor_check c3ObsA c3Registry).2 = (debug_monitor_check c3ObsB c3Registry).2 ∧
    STACK_WARNING_THRESHOLD < debug_get_stack_percent ⟨1000, 900⟩ ∧
    ¬ STACK_WARNING_THRESHOLD < debug_get_stack_percent ⟨1000, 10⟩ ∧
    (debug_monitor_check c3ObsA c3Registry).2.monitored = c3Registry.monitored := by
  decide

/-- C3 as amended: the warning counter never decreases (a check adds the
number of contexts above the threshold, a snapshot leaves it unchanged), so
once a crossing has been counted every later snapshot reports a positive
count; a check that observes a registered context above the 80 percent
threshold increments the counter by at least one; a check leaves the
registry records (including peak_usage) untouched; and a snapshot raises
each record's peak_usage to the maximum of its old value and the currently
observed usage, so peaks never decrease and track the maximum usage observed
by snapshots. -/
theorem c3_sticky_amended (obs : Nat → StackObs) (now exec : Nat) (cur : StackObs)
    (st : MonitorState) :
    st.total_stack_warnings ≤ (debug_monitor_check obs st).2.total_stack_warnings ∧
    (debug_monitor_get_stats now exec cur obs st).2.total_stack_warnings =
      st.total_stack_warnings ∧
    (∀ i, i < st.monitored.length → st.monitor_init_done = true →
      STACK_WARNING_THRESHOLD < debug_get_stack_percent (obs i) →
      st.total_stack_warnings + 1 ≤ (debug_monitor_check obs st).2.total_stack_warnings) ∧
    (debug_monitor_check obs st).2.monitored = st.monitored ∧
    (∀ i, i < st.monitored.length →
      ((debug_monitor_get_stats now exec cur obs st).2.monitored.getD i default).peak_usage =
        max (st.monitored.getD i default).peak_usage (obs i).used) := by
  refine ⟨?_, rfl, ?_, ?_, ?_⟩
  · unfold debug_monitor_check
    split
    · exact Nat.le_refl _
    · simp
  · intro i hi hinit hth
    unfold debug_monitor_check
    rw [if_neg (by simp [hinit])]
    simp only
    have hpos : 0 < (List.range st.monitored.length).countP
        (fun i => decide (STACK_WARNING_THRESHOLD < debug_get_stack_percent (obs i))) := by
      rw [List.countP_pos_iff]
      exact ⟨i, List.mem_range.mpr hi, by simpa using hth⟩
    omega
  · unfold debug_monitor_check
    split
    · rfl
    · rfl
  · intro i hi
    show ((updatePeaks obs 0 st.monitored).getD i default).peak_usage = _
    rw [updatePeaks_getD obs 0 st.monitored i hi]
    simp only [Nat.zero_add]
    split <;> omega

/-- Witness for c3_sticky_amended: the crossing of context 0 in run A
increments the warning counter of the two-context registry. -/
theorem c3_sticky_amended_witness :
    c3Registry.total_stack_warnings + 1 ≤
      (debug_monitor_check c3ObsA c3Registry).2.total_stack_warnings :=
  (c3_sticky_amended c3ObsA 0 0 ⟨0, 0⟩ c3Registry).2.2.1 0 (by decide) rfl (by decide)

/-- The registry on which the C4 counterexample runs: one registered
context with peak_usage 0. -/
def c4State : MonitorState :=
  (debug_monitor_register_thread "ml_thread" debug_monitor_init_state).2

/-- C4 counterexample: composing a snapshot is not free of side effects on
the monitor's stored state.  One debug_monitor_get_stats call on a registry
whose only record has peak_usage 0, observing 500 used bytes, changes the
stored state: the record's peak_usage becomes 500 and the CPU-accounting
fields move, even though no debug_monitor_check ever ran. -/
theorem c4_counterexample :
    (debug_monitor_get_stats 5 7 ⟨1024, 100⟩ (fun _ => ⟨4096, 500⟩) c4State).2 ≠ c4State := by
  decide

/-- C4 as amended: debug_monitor_get_stats does mutate the monitor state,
but only by raising each registry record's peak_usage to the observed usage
maximum and refreshing the CPU-accounting fields (last_check_time,
last_cpu_cycles); the warning counter, the initialization flag, the registry
length, and each record's name and stack_size are unchanged, and the
snapshot reports the stored warning counter. -/
theorem c4_get_stats_frame (now exec : Nat) (cur : StackObs) (obs : Nat → StackObs)
    (st : MonitorState) :
    (debug_monitor_get_stats now exec cur obs st).2.total_stack_warnings =
      st.total_stack_warnings ∧
    (debug_monitor_get_stats now exec cur obs st).2.monitor_init_done =
      st.monitor_init_done ∧
    (debug_monitor_get_stats now exec cur obs st).2.monitored.length =
      st.monitored.length ∧
    (∀ i, i < st.monitored.length →
      ((debug_monitor_get_stats now exec cur obs st).2.monitored.getD i default).name =
        (st.monitored.getD i default).name ∧
      ((debug_monitor_get_stats now exec cur obs st).2.monitored.getD i default).stack_size =
        (st.monitored.getD i default).stack_size ∧
      ((debug_monitor_get_stats now exec cur obs st).2.monitored.getD i default).peak_usage =
        max (st.monitored.getD i default).peak_usage (obs i).used) ∧
    (debug_monitor_get_stats now exec cur obs st).2.last_check_time = now ∧
    (debug_monitor_get_stats now exec cur obs st).2.last_cpu_cycles = exec ∧
    (debug_monitor_get_stats now exec cur obs st).1.stack_warnings =
      st.total_stack_warnings := by
  refine ⟨rfl, rfl, ?_, ?_, rfl, rfl, rfl⟩
  · exact updatePeaks_length obs 0 st.monitored
  · intro i hi
    have h := updatePeaks_getD obs 0 st.monitored i hi
    refine ⟨?_, ?_, ?_⟩
    · show ((updatePeaks obs 0 st.monitored).getD i default).name = _
      rw [h]
    · show ((updatePeaks obs 0 st.monitored).getD i default).stack_size = _
      rw [h]
    · show ((updatePeaks obs 0 st.monitored).getD i default).peak_usage = _
      rw [h]
      simp only [Nat.zero_add]
      split <;> omega

/-- Witness for c4_get_stats_frame: on the one-context registry the snapshot
raises the stored peak to the observed 500 bytes while leaving the warning
counter at its old value. -/
theorem c4_get_stats_frame_witness :
    ((debug_monitor_get_stats 5 7 ⟨1024, 100⟩ (fun _ => ⟨4096, 500⟩)
        c4State).2.monitored.getD 0 default).peak_usage =
      max (c4State.monitored.getD 0 default).peak_usage 500 ∧
    (debug_monitor_get_stats 5 7 ⟨1024, 100⟩ (fun _ => ⟨4096, 500⟩)
        c4State).2.total_stack_warnings = c4State.total_stack_warnings :=
  ⟨((c4_get_stats_frame 5 7 ⟨1024, 100⟩ (fun _ => ⟨4096, 500⟩) c4State).2.2.2.1 0
      (by decide)).2.2,
   (c4_get_stats_frame 5 7 ⟨1024, 100⟩ (fun _ => ⟨4096, 500⟩) c4State).1⟩

/- ============================================================
   Timing facility - src/src/debug/timing.c
   ============================================================ -/

/-- UINT32_MAX. -/
def UINT32_MAX : Nat := 4294967295

/-- The elapsed-cycles computation of profile_timing_end (lines 57-62 of
timing.c): `end - start` when no wrap occurred, otherwise
`(UINT32_MAX - start) + end + 1`. -/
def elapsed_cycles (start_cycles end_cycles : Nat) : Nat :=
  if start_cycles ≤ end_cycles then end_cycles - start_cycles
  else (UINT32_MAX - start_cycles) + end_cycles + 1

/-- profile_timing_end: converts the elapsed cycles to microseconds by
dividing by cycles_per_us when that is positive, otherwise returns the raw
cycle count. -/
def profile_timing_end (cycles_per_us start_cycles end_cycles : Nat) : Nat :=
  if 0 < cycles_per_us then elapsed_cycles start_cycles end_cycles / cycles_per_us
  else elapsed_cycles start_cycles end_cycles

/-- The cycles_per_us value computed by profile_timing_init from the clock
frequency, floored at 1 to prevent division by zero. -/
def profile_timing_init_cpus (freq : Nat) : Nat :=
  if freq / 1000000 = 0 then 1 else freq / 1000000

/-- C9: for every pair of 32-bit cycle counts, the elapsed-cycles value of
profile_timing_end equals (end - start) modulo 2^32 - including when the
counter wrapped so end < start - the returned value is that quantity divided
by cycles_per_us whenever cycles_per_us is positive, and
profile_timing_init always produces a positive cycles_per_us. -/
theorem c9_elapsed_wraparound (s e c freq : Nat) (hs : s < 4294967296)
    (he : e < 4294967296) :
    ((elapsed_cycles s e : Int) = ((e : Int) - (s : Int)) % 4294967296) ∧
    (0 < c → profile_timing_end c s e = elapsed_cycles s e / c) ∧
    0 < profile_timing_init_cpus freq := by
  refine ⟨?_, ?_, ?_⟩
  · unfold elapsed_cycles UINT32_MAX
    split <;> omega
  · intro hc
    unfold profile_timing_end
    rw [if_pos hc]
  · unfold profile_timing_init_cpus
    split <;> omega

/-- Witness for c9_elapsed_wraparound: a wrapped pair (start near the top of
the 32-bit range, end past zero) yields the modular difference 11. -/
theorem c9_elapsed_wraparound_witness :
    (elapsed_cycles 4294967290 5 : Int) = ((5 : Int) - (4294967290 : Int)) % 4294967296 ∧
    elapsed_cycles 4294967290 5 = 11 :=
  ⟨(c9_elapsed_wraparound 4294967290 5 1 0 (by decide) (by decide)).1, by decide⟩

/- ============================================================
   Synchronization gate - K_SEM_DEFINE(ml_sem, 0, 1) in
   src/unnamed/part_000 (main.c)
   ============================================================ -/

/-- Modelled from the spec (section 4.2, the single-slot Synchronization
Gate) together with the declaration `K_SEM_DEFINE(ml_sem, 0, 1)` in the
orchestrator source: the body of the Zephyr semaphore operations k_sem_give
and k_sem_take is kernel code outside this repository, so the gate is
embedded by its contract - a count capped at `limit`, which the declaration
fixes at 1. -/
structure k_sem where
  count : Nat
  limit : Nat
deriving DecidableEq

/-- Modelled from the spec: `notify()` - k_sem_give raises the count by one
unless it is already at the limit (idempotent past the cap, so bursts
coalesce). -/
def k_sem_give (s : k_sem) : k_sem :=
  if s.count < s.limit then { s with count := s.count + 1 } else s

/-- Modelled from the spec: `wait(timeout)` - k_sem_take consumes one pending
count and returns 0 (Signaled), or returns -EAGAIN (TimedOut) when the count
is zero and no give arrives within the timeout. -/
def k_sem_take (s : k_sem) : Int × k_sem :=
  if 0 < s.count then (0, { s with count := s.count - 1 }) else (-11, s)

/-- ml_sem as defined in the orchestrator: initial count 0, limit 1. -/
def ml_sem : k_sem := { count := 0, limit := 1 }

/-- `n` successive notifications with no intervening wait. -/
def k_sem_give_n (n : Nat) (s : k_sem) : k_sem :=
  match n with
  | 0 => s
  | n + 1 => k_sem_give (k_sem_give_n n s)

/-- Taking from a semaphore with a pending count returns Signaled and
decrements. -/
theorem k_sem_take_pos (s : k_sem) (h : 0 < s.count) :
    k_sem_take s = (0, { s with count := s.count - 1 }) := by
  unfold k_sem_take
  rw [if_pos h]

/-- Taking from an empty semaphore times out with -EAGAIN. -/
theorem k_sem_take_empty (s : k_sem) (h : s.count = 0) : (k_sem_take s).1 = -11 := by
  unfold k_sem_take
  rw [if_neg (by omega)]

/-- Giving ml_sem n times leaves count = min n 1. -/
theorem k_sem_give_n_ml_sem (n : Nat) :
    (k_sem_give_n n ml_sem).count = min n 1 ∧ (k_sem_give_n n ml_sem).limit = 1 := by
  induction n with
  | zero => exact ⟨rfl, rfl⟩
  | succ n ih =>
    obtain ⟨hc, hl⟩ := ih
    show (k_sem_give (k_sem_give_n n ml_sem)).count = _ ∧
      (k_sem_give (k_sem_give_n n ml_sem)).limit = _
    by_cases hlt : (k_sem_give_n n ml_sem).count < (k_sem_give_n n ml_sem).limit
    · unfold k_sem_give
      rw [if_pos hlt]
      refine ⟨?_, ?_⟩
      · show (k_sem_give_n n ml_sem).count + 1 = min (n + 1) 1
        omega
      · show (k_sem_give_n n ml_sem).limit = 1
        exact hl
    · unfold k_sem_give
      rw [if_neg hlt]
      exact ⟨by omega, hl⟩

/-- C5: the gate coalesces notifications.  For every N ≥ 1, N k_sem_give
calls on ml_sem (count capped at 1) with no intervening take leave exactly
one pending wake: the next k_sem_take returns 0 (Signaled) and empties the
slot, and a further take with no new give returns -EAGAIN (TimedOut). -/
theorem c5_gate_coalesces (n : Nat) (hn : 1 ≤ n) :
    (k_sem_give_n n ml_sem).count = 1 ∧
    (k_sem_take (k_sem_give_n n ml_sem)).1 = 0 ∧
    (k_sem_take (k_sem_give_n n ml_sem)).2.count = 0 ∧
    (k_sem_take (k_sem_take (k_sem_give_n n ml_sem)).2).1 = -11 := by
  obtain ⟨hc, -⟩ := k_sem_give_n_ml_sem n
  have h1 : (k_sem_give_n n ml_sem).count = 1 := by omega
  refine ⟨h1, ?_, ?_, ?_⟩
  · rw [k_sem_take_pos _ (by omega)]
  · rw [k_sem_take_pos _ (by omega)]
    show (k_sem_give_n n ml_sem).count - 1 = 0
    omega
  · apply k_sem_take_empty
    rw [k_sem_take_pos _ (by omega)]
    show (k_sem_give_n n ml_sem).count - 1 = 0
    omega

/-- Witness for c5_gate_coalesces: five notifications collapse to a single
wake. -/
theorem c5_gate_coalesces_witness :
    (k_sem_give_n 5 ml_sem).count = 1 ∧
    (k_sem_take (k_sem_give_n 5 ml_sem)).1 = 0 ∧
    (k_sem_take (k_sem_give_n 5 ml_sem)).2.count = 0 ∧
    (k_sem_take (k_sem_take (k_sem_give_n 5 ml_sem)).2).1 = -11 :=
  c5_gate_coalesces 5 (by decide)

/- ============================================================
   Inference sequence counter - src/src/ml/inference.cpp
   ============================================================ -/

/-- 2^32, the modulus of the uint32_t sequence counter. -/
def UINT32_MOD : Nat := 4294967296

/-- The slice of the mutable state of inference.cpp that governs result
sequence numbering: the initialization flag, the uint32_t
inference_sequence counter, and the success/failure statistics.  The
TensorFlow interpreter internals are external to the core (the spec treats
the engine as a collaborator) and are abstracted by the `invoke_ok` outcome
passed to each run. -/
structure MlState where
  init_done : Bool
  inference_sequence : Nat
  inference_count : Nat
  invoke_failures : Nat
deriving DecidableEq

/-- The state after ml_inference_init: sequence counter 0, counters 0. -/
def ml_inference_init_state : MlState :=
  { init_done := true, inference_sequence := 0, inference_count := 0, invoke_failures := 0 }

/-- ml_run_inference restricted to its sequencing behavior: status 1
(ML_STATUS_NOT_INITIALIZED) before init; on an Invoke failure status 3
(ML_STATUS_INVOKE_FAILED) with only the failure counter incremented; on
success status 0 with the produced result carrying sequence
`++inference_sequence` (increment modulo 2^32).  The middle component is the
sequence number stored into the result, `none` when no result is
produced. -/
def ml_run_inference (invoke_ok : Bool) (st : MlState) : Int × Option Nat × MlState :=
  if st.init_done = false then (1, none, st)
  else if invoke_ok = false then
    (3, none, { st with invoke_failures := st.invoke_failures + 1 })
  else
    (0, some ((st.inference_sequence + 1) % UINT32_MOD),
     { st with inference_sequence := (st.inference_sequence + 1) % UINT32_MOD
               inference_count := st.inference_count + 1 })

/-- Run a list of inference attempts (each entry the external engine's
success flag), collecting the sequence numbers assigned to the successful
results in order. -/
def runTrace : List Bool → MlState → List Nat × MlState
  | [], st => ([], st)
  | ok :: tr, st =>
    match ml_run_inference ok st with
    | (_, some sq, st2) =>
      match runTrace tr st2 with
      | (l, st3) => (sq :: l, st3)
    | (_, none, st2) => runTrace tr st2

/-- The number of successful attempts in a trace. -/
def countTrue : List Bool → Nat
  | [] => 0
  | true :: tr => countTrue tr + 1
  | false :: tr => countTrue tr

/-- A successful run on an initialized state. -/
theorem ml_run_inference_ok (st : MlState) (h : st.init_done = true) :
    ml_run_inference true st =
      (0, some ((st.inference_sequence + 1) % UINT32_MOD),
       { st with inference_sequence := (st.inference_sequence + 1) % UINT32_MOD
                 inference_count := st.inference_count + 1 }) := by
  unfold ml_run_inference
  rw [if_neg (by simp [h]), if_neg (by simp)]

/-- A failed run on an initialized state: no result, sequence untouched. -/
theorem ml_run_inference_fail (st : MlState) (h : st.init_done = true) :
    ml_run_inference false st =
      (3, none, { st with invoke_failures := st.invoke_failures + 1 }) := by
  unfold ml_run_inference
  rw [if_neg (by simp [h]), if_pos rfl]

/-- Closed form of runTrace while the counter does not wrap: the successful
results are assigned the consecutive numbers starting one above the current
counter, and the final counter has advanced by the number of successes. -/
theorem runTrace_no_wrap (tr : List Bool) (st : MlState) (hinit : st.init_done = true)
    (hq : st.inference_sequence + countTrue tr < UINT32_MOD) :
    (runTrace tr st).1 =
      (List.range (countTrue tr)).map (fun k => st.inference_sequence + k + 1) ∧
    (runTrace tr st).2.inference_sequence = st.inference_sequence + countTrue tr ∧
    (runTrace tr st).2.init_done = true := by
  induction tr generalizing st with
  | nil => exact ⟨rfl, by simp [runTrace, countTrue], hinit⟩
  | cons ok tr ih =>
    cases ok with
    | false =>
      have e := ml_run_inference_fail st hinit
      have h2 := ih { st with invoke_failures := st.invoke_failures + 1 } hinit
        (by simpa [countTrue] using hq)
      have hr : runTrace (false :: tr) st =
          runTrace tr { st with invoke_failures := st.invoke_failures + 1 } := by
        simp only [runTrace, e]
      rw [hr]
      exact ⟨h2.1, by rw [h2.2.1]; exact rfl, h2.2.2⟩
    | true =>
      have e := ml_run_inference_ok st hinit
      have hseq : (st.inference_sequence + 1) % UINT32_MOD = st.inference_sequence + 1 :=
        Nat.mod_eq_of_lt (by simp [countTrue] at hq; omega)
      have h2 := ih
        { st with inference_sequence := (st.inference_sequence + 1) % UINT32_MOD
                  inference_count := st.inference_count + 1 } hinit
        (by
          show (st.inference_sequence + 1) % UINT32_MOD + countTrue tr < UINT32_MOD
          simp [countTrue] at hq
          omega)
      have hr : runTrace (true :: tr) st =
          (((st.inference_sequence + 1) % UINT32_MOD) ::
            (runTrace tr
              { st with inference_sequence := (st.inference_sequence + 1) % UINT32_MOD
                        inference_count := st.inference_count + 1 }).1,
           (runTrace tr
              { st with inference_sequence := (st.inference_sequence + 1) % UINT32_MOD
                        inference_count := st.inference_count + 1 }).2) := by
        simp only [runTrace, e]
      refine ⟨?_, ?_, by rw [hr]; exact h2.2.2⟩
      · rw [hr]
        show ((st.inference_sequence + 1) % UINT32_MOD) :: (runTrace tr
            { st with inference_sequence := (st.inference_sequence + 1) % UINT32_MOD
                      inference_count := st.inference_count + 1 }).1 = _
        rw [h2.1, show countTrue (true :: tr) = countTrue tr + 1 from rfl,
          List.range_succ_eq_map, List.map_cons, List.map_map]
        refine List.cons_eq_cons.mpr ⟨by rw [hseq], List.map_congr_left ?_⟩
        intro a _
        simp only [Function.comp_apply]
        show (st.inference_sequence + 1) % UINT32_MOD + a + 1 =
          st.inference_sequence + (a + 1) + 1
        rw [hseq]
        omega
      · rw [hr]
        show (runTrace tr
            { st with inference_sequence := (st.inference_sequence + 1) % UINT32_MOD
                      inference_count := st.inference_count + 1 }).2.inference_sequence = _
        rw [h2.2.1]
        show (st.inference_sequence + 1) % UINT32_MOD + countTrue tr =
          st.inference_sequence + (countTrue tr + 1)
        rw [hseq]
        omega

/-- The sequence counter after m consecutive successful runs, wrap
included: it advances by m modulo 2^32. -/
theorem runTrace_replicate_seq (m : Nat) (st : MlState) (hinit : st.init_done = true)
    (hq : st.inference_sequence < UINT32_MOD) :
    (runTrace (List.replicate m true) st).2.inference_sequence =
      (st.inference_sequence + m) % UINT32_MOD ∧
    (runTrace (List.replicate m true) st).2.init_done = true := by
  induction m generalizing st with
  | zero => exact ⟨by simpa [runTrace] using (Nat.mod_eq_of_lt hq).symm, hinit⟩
  | succ m ih =>
    have e := ml_run_inference_ok st hinit
    have h2 := ih
      { st with inference_sequence := (st.inference_sequence + 1) % UINT32_MOD
                inference_count := st.inference_count + 1 } hinit
      (Nat.mod_lt _ (by norm_num [UINT32_MOD]))
    have hr : runTrace (List.replicate (m + 1) true) st =
        (((st.inference_sequence + 1) % UINT32_MOD) ::
          (runTrace (List.replicate m true)
            { st with inference_sequence := (st.inference_sequence + 1) % UINT32_MOD
                      inference_count := st.inference_count + 1 }).1,
         (runTrace (List.replicate m true)
            { st with inference_sequence := (st.inference_sequence + 1) % UINT32_MOD
                      inference_count := st.inference_count + 1 }).2) := by
      rw [List.replicate_succ]
      simp only [runTrace, e]
    refine ⟨?_, by rw [hr]; exact h2.2⟩
    rw [hr]
    show (runTrace (List.replicate m true)
        { st with inference_sequence := (st.inference_sequence + 1) % UINT32_MOD
                  inference_count := st.inference_count + 1 }).2.inference_sequence = _
    rw [h2.1]
    show ((st.inference_sequence + 1) % UINT32_MOD + m) % UINT32_MOD = _
    rw [Nat.mod_add_mod]
    congr 1
    omega

/-- C8 counterexample: sequence numbers are not globally strictly
increasing, because inference_sequence is a uint32_t.  Concrete input: a run
of 2^32 consecutive successful inferences after ml_inference_init.  After
2^32 - 1 successes the counter (and the last result's sequence number) is
4294967295; the next successful inference stores sequence 0 into its result
- not one greater than its predecessor, and smaller rather than larger. -/
theorem c8_counterexample :
    (runTrace (List.replicate 4294967295 true)
        ml_inference_init_state).2.inference_sequence = 4294967295 ∧
    (runTrace (List.replicate 4294967296 true)
        ml_inference_init_state).2.inference_sequence = 0 ∧
    ¬ (runTrace (List.replicate 4294967295 true)
          ml_inference_init_state).2.inference_sequence <
        (runTrace (List.replicate 4294967296 true)
          ml_inference_init_state).2.inference_sequence := by
  have h1 := (runTrace_replicate_seq 4294967295 ml_inference_init_state rfl
    (by decide)).1
  have h2 := (runTrace_replicate_seq 4294967296 ml_inference_init_state rfl
    (by decide)).1
  refine ⟨by rw [h1]; decide, by rw [h2]; decide, by rw [h1, h2]; decide⟩

/-- C8 as amended: sequence numbers increment by exactly one modulo 2^32.
As long as fewer than 2^32 successes have occurred since ml_inference_init,
the successful results are assigned exactly 1, 2, 3, ... in order - each one
greater than the previous, strictly increasing - and failed inferences
consume no sequence number (one assigned number per success, none per
failure; a failing run leaves the counter untouched). -/
theorem c8_sequence_amended (tr : List Bool) (htr : countTrue tr < UINT32_MOD) :
    (runTrace tr ml_inference_init_state).1 =
      (List.range (countTrue tr)).map (fun k => k + 1) ∧
    List.Pairwise (· < ·) (runTrace tr ml_inference_init_state).1 ∧
    (runTrace tr ml_inference_init_state).1.length = countTrue tr ∧
    (∀ st : MlState, st.init_done = true →
      (ml_run_inference true st).2.1 = some ((st.inference_sequence + 1) % UINT32_MOD) ∧
      (ml_run_inference true st).2.2.inference_sequence =
        (st.inference_sequence + 1) % UINT32_MOD ∧
      (ml_run_inference false st).2.1 = none ∧
      (ml_run_inference false st).2.2.inference_sequence = st.inference_sequence) := by
  have h := runTrace_no_wrap tr ml_inference_init_state rfl
    (by
      show 0 + countTrue tr < UINT32_MOD
      omega)
  have hlist : (runTrace tr ml_inference_init_state).1 =
      (List.range (countTrue tr)).map (fun k => k + 1) := by
    rw [h.1]
    refine List.map_congr_left ?_
    intro a _
    show 0 + a + 1 = a + 1
    omega
  refine ⟨hlist, ?_, ?_, ?_⟩
  · rw [hlist]
    refine (List.pairwise_lt_range _).map (fun k => k + 1) (fun a b hab => ?_)
    show a + 1 < b + 1
    omega
  · rw [hlist]
    simp
  · intro st hst
    have e1 := ml_run_inference_ok st hst
    have e2 := ml_run_inference_fail st hst
    exact ⟨by rw [e1], by rw [e1], by rw [e2], by rw [e2]⟩

/-- Witness for c8_sequence_amended: the trace success, failure, success,
success is assigned the sequence numbers [1, 2, 3]. -/
theorem c8_sequence_amended_witness :
    (runTrace [true, false, true, true] ml_inference_init_state).1 =
      (List.range (countTrue [true, false, true, true])).map (fun k => k + 1) ∧
    (runTrace [true, false, true, true] ml_inference_init_state).1.length =
      countTrue [true, false, true, true] :=
  ⟨(c8_sequence_amended [true, false, true, true] (by decide)).1,
   (c8_sequence_amended [true, false, true, true] (by decide)).2.2.1⟩
